import Mathlib

/-!
Shallow embedding of `superset/tags/commands/create.py`: the two tag-creation
commands (`CreateCustomTagCommand` and `CreateCustomTagWithRelationshipsCommand`),
their `validate` / `run` methods, and the persistence gateway they call.

The gateway (`TagDAO`, `db.session`) and the object-type resolver
(`to_object_type` from `superset/tags/commands/utils.py`) live outside the
embedded source file; they are modelled from the spec where noted.  Persistence
failures are injected through an explicit `Oracle` value; each `run` returns the
resulting store, the trace of gateway calls it issued, and the raised command
error (if any).
-/

/-- Modelled from the spec: the closed enumeration of taggable object types
(`superset/tags/models.py` `ObjectTypes` is not under src); spec names chart,
dashboard, query, saved-query. -/
inductive ObjectTypes
  | query
  | chart
  | dashboard
  | savedQuery
deriving DecidableEq

/-- Modelled from the spec: tag provenance kinds (`TagTypes`); this core only
produces `custom` tags. -/
inductive TagTypes
  | custom
  | owner
  | favoritedBy
deriving DecidableEq

/-- Python `str()` of an `ObjectTypes` enum member, as an f-string interpolates it. -/
def pyStrObjectTypes : ObjectTypes → String
  | .query => "ObjectTypes.query"
  | .chart => "ObjectTypes.chart"
  | .dashboard => "ObjectTypes.dashboard"
  | .savedQuery => "ObjectTypes.saved_query"

/-- Python `str()` of an `Optional[ObjectTypes]` value: `None` prints as "None". -/
def pyStrOptObjectTypes : Option ObjectTypes → String
  | none => "None"
  | some t => pyStrObjectTypes t

/-- Modelled from the spec: `to_object_type` (`superset/tags/commands/utils.py`
is not under src).  Total resolver from a loosely-typed token to a member of the
closed `ObjectTypes` enumeration, returning `none` for any unknown token and
never raising. -/
def to_object_type (token : String) : Option ObjectTypes :=
  if token = "query" then some ObjectTypes.query
  else if token = "chart" then some ObjectTypes.chart
  else if token = "dashboard" then some ObjectTypes.dashboard
  else if token = "saved_query" then some ObjectTypes.savedQuery
  else none

/-- Python truthiness of an optional list (`None` and `[]` are falsy). -/
def pyTruthyList {α : Type} (l : Option (List α)) : Bool :=
  match l with
  | none => false
  | some xs => !xs.isEmpty

/-- Python truthiness of an optional string (`None` and `""` are falsy). -/
def pyTruthyStr (s : Option String) : Bool :=
  match s with
  | none => false
  | some t => !(decide (t = ""))

/-- Python `str.strip()` on the tag name (whitespace trimming). -/
def pyStrip (s : String) : String := s.trim

/-- One validation failure appended by a `validate` method: the exception object
used as a failure entry, with the kind the source constructs
(`TagCreateFailedError(...)` in `CreateCustomTagCommand.validate`,
`TagInvalidError(...)` in `CreateCustomTagWithRelationshipsCommand.validate`)
and the message argument passed, `none` when called with no argument. -/
inductive Failure
  | tagCreateFailed (msg : Option String)
  | tagInvalid (msg : Option String)
deriving DecidableEq

/-- The message carried by a failure, if a message argument was given. -/
def Failure.message : Failure → Option String
  | .tagCreateFailed m => m
  | .tagInvalid m => m

/-- Whether the character list starts with the given pattern. -/
def listStartsWith : List Char → List Char → Bool
  | _, [] => true
  | [], _ :: _ => false
  | a :: as, b :: bs => a == b && listStartsWith as bs

/-- Whether the character list contains the pattern as a contiguous run. -/
def listHasSub (pat : List Char) : List Char → Bool
  | [] => listStartsWith [] pat
  | a :: rest => listStartsWith (a :: rest) pat || listHasSub pat rest

/-- Whether string `m` contains `tok` as a substring. -/
def strMentions (m : String) (tok : String) : Bool := listHasSub tok.toList m.toList

/-- A failure "references" a token when its message contains that token's text;
a failure constructed with no message references nothing. -/
def failureMentions (f : Failure) (tok : String) : Bool :=
  match f.message with
  | some m => strMentions m tok
  | none => false

/-- The persistence layer's creation-failure exception (`DAOCreateFailedError`),
carrying its diagnostic message. -/
structure DAOCreateFailedError where
  message : String
deriving DecidableEq

/-- A command-level error reaching the caller: the aggregated `TagInvalidError`
raised by `validate`, or a `TagCreateFailedError` with its optional message and
the `from ex` cause when one was attached. -/
inductive CmdError
  | tagInvalid (failures : List Failure)
  | tagCreateFailed (msg : Option String) (cause : Option DAOCreateFailedError)
deriving DecidableEq

/-- A persisted tag row: unique (name, kind) with an optional description. -/
structure Tag where
  name : String
  kind : TagTypes
  description : Option String
deriving DecidableEq

/-- Modelled from the spec: the persistence gateway's state — tag rows and
tag-object associations (object type, object id, tag name). -/
structure Store where
  tags : List Tag
  assocs : List (ObjectTypes × Int × String)
deriving DecidableEq

/-- The row predicate identifying a tag by name and kind. -/
def tagMatches (n : String) (k : TagTypes) (t : Tag) : Bool :=
  decide (t.name = n) && decide (t.kind = k)

/-- Modelled from the spec: `TagDAO.get_by_name(name, kind)` — atomic
lookup-or-create of the tag row by (name, kind); a newly created tag has no
description. -/
def TagDAO.get_by_name (s : Store) (n : String) (k : TagTypes) : Store × Tag :=
  match s.tags.find? (tagMatches n k) with
  | some t => (s, t)
  | none =>
    ({ s with tags := s.tags ++ [{ name := n, kind := k, description := none }] },
     { name := n, kind := k, description := none })

/-- Modelled from the spec: `TagDAO.create_tag_relationship(objects_to_tag, tag,
bulk_create)` — associates the tag with every referenced object. -/
def TagDAO.create_tag_relationship (s : Store) (objs : List (String × Int))
    (tagName : String) : Store :=
  { s with assocs := s.assocs ++
      objs.filterMap (fun p => (to_object_type p.1).map (fun ot => (ot, p.2, tagName))) }

/-- One step of `create_custom_tagged_objects`: ensure the named custom tag
exists and the association is present (idempotent association). -/
def addTaggedOne (ot : ObjectTypes) (oid : Int) (s : Store) (n : String) : Store :=
  let s1 := (TagDAO.get_by_name s n TagTypes.custom).1
  if s1.assocs.any (fun a => decide (a = (ot, oid, n))) then s1
  else { s1 with assocs := s1.assocs ++ [(ot, oid, n)] }

/-- Modelled from the spec: `TagDAO.create_custom_tagged_objects(object_type,
object_id, tag_names)` — create (or reuse) each named custom tag and associate
it with the object, without duplicating associations. -/
def TagDAO.create_custom_tagged_objects (s : Store) (ot : ObjectTypes) (oid : Int)
    (names : List String) : Store :=
  names.foldl (addTaggedOne ot oid) s

/-- The description assignment applied to a tag row when it matches (name, kind). -/
def setDescTag (n : String) (k : TagTypes) (d : String) (t : Tag) : Tag :=
  if tagMatches n k t then { t with description := some d } else t

/-- `tag.description = d` followed by `db.session.commit()`: the durable effect
on the store, setting the description of the (name, kind) row. -/
def setDesc (s : Store) (n : String) (k : TagTypes) (d : String) : Store :=
  { s with tags := s.tags.map (setDescTag n k d) }

/-- Number of tag rows with the given name and kind. -/
def countTags (s : Store) (n : String) (k : TagTypes) : Nat :=
  s.tags.countP (tagMatches n k)

/-- The description of the first tag row with the given name and kind, `none`
when no such row exists. -/
def tagDesc (s : Store) (n : String) (k : TagTypes) : Option (Option String) :=
  (s.tags.find? (tagMatches n k)).map Tag.description

/-- A persistence-gateway call issued by `run`, as recorded in the trace. -/
inductive GEvent
  | getByName (n : String) (k : TagTypes)
  | createRel (objs : List (String × Int)) (tagName : String) (bulk : Bool)
  | createTaggedObjects (t : ObjectTypes) (oid : Int) (names : List String)
  | commit
deriving DecidableEq

/-- Whether a gateway event is the lookup-or-create call. -/
def isGetByName : GEvent → Bool
  | GEvent.getByName _ _ => true
  | _ => false

/-- Failure injection for the gateway: for each fallible DAO call, `some ex`
means the call raises `DAOCreateFailedError ex`, `none` means it succeeds. -/
structure Oracle where
  createTaggedFails : Option DAOCreateFailedError
  getByNameFails : Option DAOCreateFailedError
  createRelFails : Option DAOCreateFailedError
deriving DecidableEq

/-- `CreateCustomTagCommand.validate` (create.py lines 52-64): collects the
failure list `exceptions`; the method raises `TagInvalidError(exceptions=...)`
exactly when this list is nonempty.  The id check appends a bare
`TagCreateFailedError()`; the type check appends
`TagCreateFailedError(f"invalid object type {self._object_type}")` with the raw
token interpolated. -/
def CreateCustomTagCommand.validate (object_type : String) (object_id : Int) :
    List Failure :=
  (if object_id = 0 then [Failure.tagCreateFailed none] else []) ++
  (if (to_object_type object_type).isNone then
    [Failure.tagCreateFailed (some ("invalid object type " ++ object_type))]
  else [])

/-- The per-reference type check of
`CreateCustomTagWithRelationshipsCommand.validate` (create.py lines 101-106):
when the token does not resolve, it appends
`TagInvalidError(f"invalid object type {object_type}")` — interpolating the
local `object_type`, the resolved value, which is `None` on this branch. -/
def typeFailure2 (p : String × Int) : Option Failure :=
  if (to_object_type p.1).isNone then
    some (Failure.tagInvalid
      (some ("invalid object type " ++ pyStrOptObjectTypes (to_object_type p.1))))
  else none

/-- `CreateCustomTagWithRelationshipsCommand.validate` (create.py lines 93-109):
when `objects_to_tag` is truthy, a single bare `TagInvalidError()` is appended
if ANY reference has id 0 (the `any(...)` check), then one type failure per
unresolvable token; the method raises `TagInvalidError(exceptions=...)` exactly
when the list is nonempty. -/
def CreateCustomTagWithRelationshipsCommand.validate
    (objects_to_tag : Option (List (String × Int))) : List Failure :=
  if pyTruthyList objects_to_tag then
    (if (objects_to_tag.getD []).any (fun p => decide (p.2 = 0)) then
      [Failure.tagInvalid none]
    else []) ++
    (objects_to_tag.getD []).filterMap typeFailure2
  else []

/-- The `try` block of `CreateCustomTagCommand.run` (create.py lines 39-50):
re-resolve the type (a `None` here raises `TagCreateFailedError(msg)`, which the
`except DAOCreateFailedError` clause does not catch, so it propagates with no
cause); otherwise call `create_custom_tagged_objects`, converting a
`DAOCreateFailedError` into `TagCreateFailedError() from ex`. -/
def CreateCustomTagCommand.runBody (object_type : String) (object_id : Int)
    (tags : List String) (o : Oracle) (s : Store) :
    Store × List GEvent × Option CmdError :=
  match to_object_type object_type with
  | none => (s, [], some (CmdError.tagCreateFailed
      (some ("invalid object type " ++ object_type)) none))
  | some ot =>
    match o.createTaggedFails with
    | some ex => (s, [GEvent.createTaggedObjects ot object_id tags],
        some (CmdError.tagCreateFailed none (some ex)))
    | none => (TagDAO.create_custom_tagged_objects s ot object_id tags,
        [GEvent.createTaggedObjects ot object_id tags], none)

/-- `CreateCustomTagCommand.run` (create.py lines 37-50): `self.validate()`
first — its raised `TagInvalidError` propagates before any gateway call — then
the try block. -/
def CreateCustomTagCommand.run (object_type : String) (object_id : Int)
    (tags : List String) (o : Oracle) (s : Store) :
    Store × List GEvent × Option CmdError :=
  let exceptions := CreateCustomTagCommand.validate object_type object_id
  if exceptions.isEmpty then CreateCustomTagCommand.runBody object_type object_id tags o s
  else (s, [], some (CmdError.tagInvalid exceptions))

/-- The `if self._description:` tail of
`CreateCustomTagWithRelationshipsCommand.run` (create.py lines 85-87): a truthy
description is assigned to the tag and committed; otherwise nothing happens. -/
def descStep (tag : Tag) (description : Option String) (s : Store)
    (tr : List GEvent) : Store × List GEvent × Option CmdError :=
  if pyTruthyStr description then
    (setDesc s tag.name tag.kind (description.getD ""), tr ++ [GEvent.commit], none)
  else (s, tr, none)

/-- The `try` block of `CreateCustomTagWithRelationshipsCommand.run` (create.py
lines 76-91): `get_by_name(self._tag.strip(), TagTypes.custom)`, then
`create_tag_relationship` if `objects_to_tag` is truthy, then the description
step; a `DAOCreateFailedError` raised by either DAO call aborts the rest and is
re-raised as `TagCreateFailedError() from ex`. -/
def CreateCustomTagWithRelationshipsCommand.runBody (name : String)
    (objects_to_tag : Option (List (String × Int))) (description : Option String)
    (bulk_create : Bool) (o : Oracle) (s : Store) :
    Store × List GEvent × Option CmdError :=
  match o.getByNameFails with
  | some ex => (s, [GEvent.getByName (pyStrip name) TagTypes.custom],
      some (CmdError.tagCreateFailed none (some ex)))
  | none =>
    let st := TagDAO.get_by_name s (pyStrip name) TagTypes.custom
    let tr1 := [GEvent.getByName (pyStrip name) TagTypes.custom]
    if pyTruthyList objects_to_tag then
      match o.createRelFails with
      | some ex => (st.1,
          tr1 ++ [GEvent.createRel (objects_to_tag.getD []) st.2.name bulk_create],
          some (CmdError.tagCreateFailed none (some ex)))
      | none =>
        descStep st.2 description
          (TagDAO.create_tag_relationship st.1 (objects_to_tag.getD []) st.2.name)
          (tr1 ++ [GEvent.createRel (objects_to_tag.getD []) st.2.name bulk_create])
    else
      descStep st.2 description st.1 tr1

/-- `CreateCustomTagWithRelationshipsCommand.run` (create.py lines 74-91):
`self.validate()` first — its raised `TagInvalidError` propagates before any
gateway call — then the try block. -/
def CreateCustomTagWithRelationshipsCommand.run (name : String)
    (objects_to_tag : Option (List (String × Int))) (description : Option String)
    (bulk_create : Bool) (o : Oracle) (s : Store) :
    Store × List GEvent × Option CmdError :=
  let exceptions := CreateCustomTagWithRelationshipsCommand.validate objects_to_tag
  if exceptions.isEmpty then
    CreateCustomTagWithRelationshipsCommand.runBody name objects_to_tag description
      bulk_create o s
  else (s, [], some (CmdError.tagInvalid exceptions))

/-- The oracle on which every gateway call succeeds. -/
def okOracle : Oracle := { createTaggedFails := none, getByNameFails := none, createRelFails := none }

example : CreateCustomTagCommand.validate "chart" 0 = [Failure.tagCreateFailed none] := by decide

example : CreateCustomTagWithRelationshipsCommand.validate
    (some [("chart", 0), ("dashboard", 0)]) = [Failure.tagInvalid none] := by decide

example : CreateCustomTagWithRelationshipsCommand.validate (some [("foo", 5)]) =
    [Failure.tagInvalid (some "invalid object type None")] := by decide

example : CreateCustomTagWithRelationshipsCommand.validate (some []) = [] := by decide

example : failureMentions (Failure.tagCreateFailed (some "invalid object type foo")) "foo" = true := by decide

/-! ### Store lemmas -/

theorem countTags_pos_of_find?_some {s : Store} {n : String} {k : TagTypes} {t : Tag}
    (h : s.tags.find? (tagMatches n k) = some t) : 0 < countTags s n k :=
  List.countP_pos_iff.mpr ⟨t, List.mem_of_find?_eq_some h, List.find?_some h⟩

theorem countTags_eq_zero_of_find?_none {s : Store} {n : String} {k : TagTypes}
    (h : s.tags.find? (tagMatches n k) = none) : countTags s n k = 0 :=
  List.countP_eq_zero.mpr (List.find?_eq_none.mp h)

theorem tagMatches_self (n : String) (k : TagTypes) (d : Option String) :
    tagMatches n k { name := n, kind := k, description := d } = true := by
  simp [tagMatches]

theorem get_by_name_name (s : Store) (n : String) (k : TagTypes) :
    (TagDAO.get_by_name s n k).2.name = n ∧ (TagDAO.get_by_name s n k).2.kind = k := by
  unfold TagDAO.get_by_name
  cases h : s.tags.find? (tagMatches n k) with
  | some t =>
    have ht := List.find?_some h
    simp [tagMatches] at ht
    simpa using ht
  | none => simp

theorem get_by_name_assocs (s : Store) (n : String) (k : TagTypes) :
    (TagDAO.get_by_name s n k).1.assocs = s.assocs := by
  unfold TagDAO.get_by_name
  cases h : s.tags.find? (tagMatches n k) <;> rfl

theorem get_by_name_count (s : Store) (n : String) (k : TagTypes) :
    countTags (TagDAO.get_by_name s n k).1 n k = max (countTags s n k) 1 := by
  unfold TagDAO.get_by_name
  cases h : s.tags.find? (tagMatches n k) with
  | some t =>
    have hp := countTags_pos_of_find?_some h
    simp only
    omega
  | none =>
    have hz := countTags_eq_zero_of_find?_none h
    simp only [countTags] at hz ⊢
    rw [List.countP_append, hz]
    simp [List.countP_cons, tagMatches_self]

theorem get_by_name_count_pos (s : Store) (n : String) (k : TagTypes) :
    0 < countTags (TagDAO.get_by_name s n k).1 n k := by
  rw [get_by_name_count]; omega

theorem tagDesc_get_by_name (s : Store) (n : String) (k : TagTypes)
    (m : String) (j : TagTypes) :
    tagDesc (TagDAO.get_by_name s n k).1 m j = tagDesc s m j ∨
      (tagDesc s m j = none ∧ tagDesc (TagDAO.get_by_name s n k).1 m j = some none) := by
  unfold TagDAO.get_by_name
  cases h : s.tags.find? (tagMatches n k) with
  | some t => left; rfl
  | none =>
    unfold tagDesc
    simp only [List.find?_append]
    cases hg : s.tags.find? (tagMatches m j) with
    | some u => left; rfl
    | none =>
      cases hm : tagMatches m j { name := n, kind := k, description := none } with
      | false => left; simp [List.find?, hm]
      | true => right; simp [List.find?, hm]

theorem create_tag_relationship_tags (s : Store) (objs : List (String × Int))
    (tn : String) : (TagDAO.create_tag_relationship s objs tn).tags = s.tags := rfl

theorem tagMatches_setDescTag (m : String) (j : TagTypes) (n : String) (k : TagTypes)
    (d : String) (t : Tag) :
    tagMatches m j (setDescTag n k d t) = tagMatches m j t := by
  unfold setDescTag
  split <;> simp [tagMatches]

theorem countP_map_setDescTag (m : String) (j : TagTypes) (n : String) (k : TagTypes)
    (d : String) : ∀ l : List Tag,
    (l.map (setDescTag n k d)).countP (tagMatches m j) = l.countP (tagMatches m j)
  | [] => rfl
  | t :: ts => by
    simp [List.countP_cons, tagMatches_setDescTag,
      countP_map_setDescTag m j n k d ts]

theorem countTags_setDesc (s : Store) (m : String) (j : TagTypes) (n : String)
    (k : TagTypes) (d : String) :
    countTags (setDesc s n k d) m j = countTags s m j :=
  countP_map_setDescTag m j n k d s.tags

theorem setDesc_assocs (s : Store) (n : String) (k : TagTypes) (d : String) :
    (setDesc s n k d).assocs = s.assocs := rfl

theorem find?_map_setDescTag (n : String) (k : TagTypes) (d : String) :
    ∀ l : List Tag, (l.map (setDescTag n k d)).find? (tagMatches n k) =
      (l.find? (tagMatches n k)).map (fun t => { t with description := some d })
  | [] => rfl
  | t :: ts => by
    cases h : tagMatches n k t with
    | true =>
      have h2 : tagMatches n k (setDescTag n k d t) = true := by
        rw [tagMatches_setDescTag]; exact h
      have h3 : setDescTag n k d t = { t with description := some d } := by
        simp [setDescTag, h]
      rw [List.map_cons, List.find?_cons_of_pos _ h2, List.find?_cons_of_pos _ h, h3]
      rfl
    | false =>
      have h2 : ¬ tagMatches n k (setDescTag n k d t) = true := by
        rw [tagMatches_setDescTag]; simp [h]
      rw [List.map_cons, List.find?_cons_of_neg _ h2,
        List.find?_cons_of_neg _ (by simp [h])]
      exact find?_map_setDescTag n k d ts

theorem tagDesc_setDesc_pos (s : Store) (n : String) (k : TagTypes) (d : String)
    (h : 0 < countTags s n k) :
    tagDesc (setDesc s n k d) n k = some (some d) := by
  unfold tagDesc setDesc
  simp only [find?_map_setDescTag]
  cases hf : s.tags.find? (tagMatches n k) with
  | none => exact absurd (countTags_eq_zero_of_find?_none hf) (by omega)
  | some t => simp

/-! ### Control-flow lemmas for `run` -/

theorem run1_invalid_eq (object_type : String) (object_id : Int) (tags : List String)
    (o : Oracle) (s : Store)
    (hv : CreateCustomTagCommand.validate object_type object_id ≠ []) :
    CreateCustomTagCommand.run object_type object_id tags o s =
      (s, [], some (CmdError.tagInvalid (CreateCustomTagCommand.validate object_type object_id))) := by
  unfold CreateCustomTagCommand.run
  simp [List.isEmpty_iff, hv]

theorem run1_valid_eq (object_type : String) (object_id : Int) (tags : List String)
    (o : Oracle) (s : Store)
    (hv : CreateCustomTagCommand.validate object_type object_id = []) :
    CreateCustomTagCommand.run object_type object_id tags o s =
      CreateCustomTagCommand.runBody object_type object_id tags o s := by
  unfold CreateCustomTagCommand.run
  rw [hv]
  rfl

theorem run2_invalid_eq (name : String) (objs : Option (List (String × Int)))
    (d : Option String) (b : Bool) (o : Oracle) (s : Store)
    (hv : CreateCustomTagWithRelationshipsCommand.validate objs ≠ []) :
    CreateCustomTagWithRelationshipsCommand.run name objs d b o s =
      (s, [], some (CmdError.tagInvalid
        (CreateCustomTagWithRelationshipsCommand.validate objs))) := by
  unfold CreateCustomTagWithRelationshipsCommand.run
  simp [List.isEmpty_iff, hv]

theorem run2_valid_eq (name : String) (objs : Option (List (String × Int)))
    (d : Option String) (b : Bool) (o : Oracle) (s : Store)
    (hv : CreateCustomTagWithRelationshipsCommand.validate objs = []) :
    CreateCustomTagWithRelationshipsCommand.run name objs d b o s =
      CreateCustomTagWithRelationshipsCommand.runBody name objs d b o s := by
  unfold CreateCustomTagWithRelationshipsCommand.run
  rw [hv]
  rfl

theorem validate1_empty_resolves {object_type : String} {object_id : Int}
    (h : CreateCustomTagCommand.validate object_type object_id = []) :
    ∃ ot, to_object_type object_type = some ot := by
  unfold CreateCustomTagCommand.validate at h
  rcases List.append_eq_nil.mp h with ⟨-, h2⟩
  cases hto : to_object_type object_type with
  | none => rw [hto] at h2; simp at h2
  | some ot => exact ⟨ot, rfl⟩

theorem typeFailure2_shape {p : String × Int} {f : Failure}
    (h : typeFailure2 p = some f) :
    f = Failure.tagInvalid (some "invalid object type None") := by
  unfold typeFailure2 at h
  cases hto : to_object_type p.1 with
  | none => rw [hto] at h; simp [pyStrOptObjectTypes] at h; exact h.symm
  | some ot => rw [hto] at h; simp at h

theorem countP_idFailure_typeFailures (l : List (String × Int)) :
    (l.filterMap typeFailure2).countP
      (fun f => decide (f = Failure.tagInvalid none)) = 0 := by
  apply List.countP_eq_zero.mpr
  intro f hf
  obtain ⟨p, hp, hpf⟩ := List.mem_filterMap.mp hf
  rw [typeFailure2_shape hpf]
  simp

theorem tagDesc_create_tag_relationship (s : Store) (objs : List (String × Int))
    (tn : String) (m : String) (j : TagTypes) :
    tagDesc (TagDAO.create_tag_relationship s objs tn) m j = tagDesc s m j := rfl

/-! ### Claims -/

/-- Claim C1 counterexample: a BulkTagRequest batch with K = 2 sentinel-id
references does NOT yield 2 invalid-id failures — `validate` appends a single
bare failure for the whole batch. -/
theorem C1_counterexample :
    ¬ ((CreateCustomTagWithRelationshipsCommand.validate
          (some [("chart", 0), ("dashboard", 0)])).countP
        (fun f => decide (f = Failure.tagInvalid none)) = 2) := by
  decide

/-- Claim C1 (amended): for every batch in which at least one object reference
has the sentinel unset id 0, `run` raises the aggregated invalid-input error
carrying exactly ONE bare invalid-id failure covering the whole batch
(regardless of how many ids are bad), alongside the per-token type failures. -/
theorem C1_single_id_failure (name : String) (l : List (String × Int))
    (d : Option String) (b : Bool) (o : Oracle) (s : Store)
    (h : l.any (fun p => decide (p.2 = 0)) = true) :
    ∃ fs, (CreateCustomTagWithRelationshipsCommand.run name (some l) d b o s).2.2 =
        some (CmdError.tagInvalid fs) ∧
      fs.countP (fun f => decide (f = Failure.tagInvalid none)) = 1 := by
  have hne : l ≠ [] := by
    intro he
    rw [he] at h
    simp at h
  have hle : l.isEmpty = false := by simp [List.isEmpty_iff, hne]
  have hv : CreateCustomTagWithRelationshipsCommand.validate (some l) =
      Failure.tagInvalid none :: l.filterMap typeFailure2 := by
    unfold CreateCustomTagWithRelationshipsCommand.validate
    simp [pyTruthyList, hle, h]
  have hnv : CreateCustomTagWithRelationshipsCommand.validate (some l) ≠ [] := by
    rw [hv]; simp
  refine ⟨Failure.tagInvalid none :: l.filterMap typeFailure2, ?_, ?_⟩
  · rw [run2_invalid_eq name (some l) d b o s hnv, hv]
  · rw [List.countP_cons]
    simp [countP_idFailure_typeFailures l]

/-- Witness for C1_single_id_failure at the concrete batch
[("chart", 0), ("dashboard", 0)]. -/
theorem C1_single_id_failure_witness :
    ∃ fs, (CreateCustomTagWithRelationshipsCommand.run "mytag"
        (some [("chart", 0), ("dashboard", 0)]) none false okOracle
        { tags := [], assocs := [] }).2.2 = some (CmdError.tagInvalid fs) ∧
      fs.countP (fun f => decide (f = Failure.tagInvalid none)) = 1 :=
  C1_single_id_failure "mytag" [("chart", 0), ("dashboard", 0)] none false okOracle
    { tags := [], assocs := [] } (by decide)

/-- Claim C2: when the relationship-creation persistence call fails, `run`
re-raises the create-failed error, issues no commit, and the post-error store
carries no description change — every tag row either keeps the description it
had in the initial store or is a freshly created row with no description; in
particular the supplied description was never applied. -/
theorem C2_relationship_failure_atomic (name : String) (l : List (String × Int))
    (d : Option String) (b : Bool) (o : Oracle) (s : Store)
    (ex : DAOCreateFailedError)
    (hv : CreateCustomTagWithRelationshipsCommand.validate (some l) = [])
    (hl : l ≠ [])
    (hg : o.getByNameFails = none)
    (hr : o.createRelFails = some ex) :
    GEvent.commit ∉ (CreateCustomTagWithRelationshipsCommand.run name (some l) d b o s).2.1 ∧
    (CreateCustomTagWithRelationshipsCommand.run name (some l) d b o s).2.2 =
      some (CmdError.tagCreateFailed none (some ex)) ∧
    ∀ m j, tagDesc (CreateCustomTagWithRelationshipsCommand.run name (some l) d b o s).1 m j =
        tagDesc s m j ∨
      (tagDesc s m j = none ∧
        tagDesc (CreateCustomTagWithRelationshipsCommand.run name (some l) d b o s).1 m j =
          some none) := by
  have hle : l.isEmpty = false := by simp [List.isEmpty_iff, hl]
  have hrun : CreateCustomTagWithRelationshipsCommand.run name (some l) d b o s =
      ((TagDAO.get_by_name s (pyStrip name) TagTypes.custom).1,
       [GEvent.getByName (pyStrip name) TagTypes.custom,
        GEvent.createRel l (TagDAO.get_by_name s (pyStrip name) TagTypes.custom).2.name b],
       some (CmdError.tagCreateFailed none (some ex))) := by
    rw [run2_valid_eq name (some l) d b o s hv]
    unfold CreateCustomTagWithRelationshipsCommand.runBody
    rw [hg, hr]
    simp [pyTruthyList, hle]
  rw [hrun]
  exact ⟨by simp, rfl, fun m j => tagDesc_get_by_name s (pyStrip name) TagTypes.custom m j⟩

/-- Witness for C2_relationship_failure_atomic: one valid reference, a supplied
description, and a failing relationship-creation call. -/
theorem C2_relationship_failure_atomic_witness :
    GEvent.commit ∉ (CreateCustomTagWithRelationshipsCommand.run "mytag"
        (some [("chart", 5)]) (some "desc") false
        { createTaggedFails := none, getByNameFails := none,
          createRelFails := some { message := "db down" } }
        { tags := [], assocs := [] }).2.1 ∧
    (CreateCustomTagWithRelationshipsCommand.run "mytag" (some [("chart", 5)])
        (some "desc") false
        { createTaggedFails := none, getByNameFails := none,
          createRelFails := some { message := "db down" } }
        { tags := [], assocs := [] }).2.2 =
      some (CmdError.tagCreateFailed none (some { message := "db down" })) ∧
    ∀ m j, tagDesc (CreateCustomTagWithRelationshipsCommand.run "mytag"
        (some [("chart", 5)]) (some "desc") false
        { createTaggedFails := none, getByNameFails := none,
          createRelFails := some { message := "db down" } }
        { tags := [], assocs := [] }).1 m j =
        tagDesc { tags := [], assocs := [] } m j ∨
      (tagDesc { tags := [], assocs := [] } m j = none ∧
        tagDesc (CreateCustomTagWithRelationshipsCommand.run "mytag"
          (some [("chart", 5)]) (some "desc") false
          { createTaggedFails := none, getByNameFails := none,
            createRelFails := some { message := "db down" } }
          { tags := [], assocs := [] }).1 m j = some none) :=
  C2_relationship_failure_atomic "mytag" [("chart", 5)] (some "desc") false
    { createTaggedFails := none, getByNameFails := none,
      createRelFails := some { message := "db down" } }
    { tags := [], assocs := [] } { message := "db down" }
    (by decide) (by decide) rfl rfl

/-- Claim C3: whenever validation fails, `run` of either command raises the
aggregated invalid-input error carrying the full failure list, performs no
persistence-gateway call (empty trace), and leaves the store untouched. -/
theorem C3_validation_before_persistence (object_type : String) (object_id : Int)
    (tags : List String) (name : String) (objs : Option (List (String × Int)))
    (d : Option String) (b : Bool) (o1 o2 : Oracle) (s1 s2 : Store)
    (h1 : CreateCustomTagCommand.validate object_type object_id ≠ [])
    (h2 : CreateCustomTagWithRelationshipsCommand.validate objs ≠ []) :
    CreateCustomTagCommand.run object_type object_id tags o1 s1 =
      (s1, [], some (CmdError.tagInvalid
        (CreateCustomTagCommand.validate object_type object_id))) ∧
    CreateCustomTagWithRelationshipsCommand.run name objs d b o2 s2 =
      (s2, [], some (CmdError.tagInvalid
        (CreateCustomTagWithRelationshipsCommand.validate objs))) :=
  ⟨run1_invalid_eq object_type object_id tags o1 s1 h1,
   run2_invalid_eq name objs d b o2 s2 h2⟩

/-- Witness for C3_validation_before_persistence: a zero object id for the first
command and a zero-id reference for the second. -/
theorem C3_validation_before_persistence_witness :
    CreateCustomTagCommand.run "chart" 0 ["a"] okOracle { tags := [], assocs := [] } =
      ({ tags := [], assocs := [] }, [], some (CmdError.tagInvalid
        (CreateCustomTagCommand.validate "chart" 0))) ∧
    CreateCustomTagWithRelationshipsCommand.run "mytag" (some [("dashboard", 0)])
        none false okOracle { tags := [], assocs := [] } =
      ({ tags := [], assocs := [] }, [], some (CmdError.tagInvalid
        (CreateCustomTagWithRelationshipsCommand.validate (some [("dashboard", 0)])))) :=
  C3_validation_before_persistence "chart" 0 ["a"] "mytag" (some [("dashboard", 0)])
    none false okOracle okOracle { tags := [], assocs := [] }
    { tags := [], assocs := [] } (by decide) (by decide)

/-- Claim C4 is a code bug in `CreateCustomTagWithRelationshipsCommand.validate`
(create.py line 105): the f-string interpolates the local `object_type` — the
RESOLVED value, which is always `None` on that branch — instead of the offending
token `obj_type`, so the recorded message is "invalid object type None" and does
not reference the token.  `CreateCustomTagCommand.validate` (line 61)
interpolates the raw token as the claim states, and resolvable tokens produce no
type failure in either command. -/
theorem C4_type_token_message_bug :
    ((CreateCustomTagCommand.validate "foo" 5).any
      (fun f => failureMentions f "foo") = true) ∧
    (CreateCustomTagWithRelationshipsCommand.validate (some [("foo", 5)]) =
      [Failure.tagInvalid (some "invalid object type None")]) ∧
    ((CreateCustomTagWithRelationshipsCommand.validate (some [("foo", 5)])).any
      (fun f => failureMentions f "foo") = false) ∧
    (CreateCustomTagCommand.validate "chart" 5 = []) ∧
    (CreateCustomTagWithRelationshipsCommand.validate (some [("chart", 5)]) = []) := by
  decide

/-- Claim C5 counterexample: for object id 0 (with a resolvable type token),
`CreateCustomTagCommand.validate` records only a bare, message-less failure, so
no recorded failure references the offending id "0". -/
theorem C5_counterexample :
    ¬ ((CreateCustomTagCommand.validate "chart" 0).any
        (fun f => failureMentions f "0") = true) := by
  decide

/-- Claim C5 (amended): for every object id equal to the sentinel unset value 0,
`CreateCustomTagCommand.validate` yields a nonempty failure list — so the
aggregated invalid-input error is raised — containing at least one individual
failure for the id check; that failure is a bare `TagCreateFailedError()`
carrying no message, hence it does not reference the offending id. -/
theorem C5_sentinel_id_generic_failure (object_type : String) :
    CreateCustomTagCommand.validate object_type 0 ≠ [] ∧
    Failure.tagCreateFailed none ∈ CreateCustomTagCommand.validate object_type 0 := by
  unfold CreateCustomTagCommand.validate
  simp

/-- For an empty batch, a non-empty description and a succeeding lookup call,
`run` reduces to: look up or create the tag, set its description, commit. -/
theorem run2_empty_batch_desc_eq (name d : String) (b : Bool) (o : Oracle)
    (s : Store) (hd : d ≠ "") (hg : o.getByNameFails = none) :
    CreateCustomTagWithRelationshipsCommand.run name (some []) (some d) b o s =
      (setDesc (TagDAO.get_by_name s (pyStrip name) TagTypes.custom).1
         (pyStrip name) TagTypes.custom d,
       [GEvent.getByName (pyStrip name) TagTypes.custom, GEvent.commit], none) := by
  have hv : CreateCustomTagWithRelationshipsCommand.validate (some []) = [] := rfl
  rw [run2_valid_eq name (some []) (some d) b o s hv]
  unfold CreateCustomTagWithRelationshipsCommand.runBody
  rw [hg]
  have hn := (get_by_name_name s (pyStrip name) TagTypes.custom).1
  have hk := (get_by_name_name s (pyStrip name) TagTypes.custom).2
  simp [pyTruthyList, descStep, pyTruthyStr, hd, hn, hk]

/-- Claim C6: a request with an empty object-reference batch and a non-empty
description validates with no failures; `run` creates or reuses the named tag,
creates no associations, sets the tag's description to the supplied value, and
commits before returning without error — the trace is exactly the lookup call
followed by the commit. -/
theorem C6_empty_batch_description (name d : String) (b : Bool) (o : Oracle)
    (s : Store) (hd : d ≠ "") (hg : o.getByNameFails = none) :
    CreateCustomTagWithRelationshipsCommand.validate (some []) = [] ∧
    (CreateCustomTagWithRelationshipsCommand.run name (some []) (some d) b o s).2.2 = none ∧
    (CreateCustomTagWithRelationshipsCommand.run name (some []) (some d) b o s).2.1 =
      [GEvent.getByName (pyStrip name) TagTypes.custom, GEvent.commit] ∧
    tagDesc (CreateCustomTagWithRelationshipsCommand.run name (some []) (some d) b o s).1
      (pyStrip name) TagTypes.custom = some (some d) ∧
    (CreateCustomTagWithRelationshipsCommand.run name (some []) (some d) b o s).1.assocs =
      s.assocs ∧
    countTags (CreateCustomTagWithRelationshipsCommand.run name (some []) (some d) b o s).1
      (pyStrip name) TagTypes.custom =
      max (countTags s (pyStrip name) TagTypes.custom) 1 := by
  rw [run2_empty_batch_desc_eq name d b o s hd hg]
  refine ⟨rfl, rfl, rfl, ?_, ?_, ?_⟩
  · exact tagDesc_setDesc_pos _ _ _ _ (get_by_name_count_pos s (pyStrip name) TagTypes.custom)
  · rw [setDesc_assocs, get_by_name_assocs]
  · rw [countTags_setDesc, get_by_name_count]

/-- Witness for C6_empty_batch_description on an empty store. -/
theorem C6_empty_batch_description_witness :
    CreateCustomTagWithRelationshipsCommand.validate (some []) = [] ∧
    (CreateCustomTagWithRelationshipsCommand.run "q1" (some []) (some "desc") false
      okOracle { tags := [], assocs := [] }).2.2 = none ∧
    (CreateCustomTagWithRelationshipsCommand.run "q1" (some []) (some "desc") false
      okOracle { tags := [], assocs := [] }).2.1 =
      [GEvent.getByName (pyStrip "q1") TagTypes.custom, GEvent.commit] ∧
    tagDesc (CreateCustomTagWithRelationshipsCommand.run "q1" (some []) (some "desc")
      false okOracle { tags := [], assocs := [] }).1 (pyStrip "q1") TagTypes.custom =
      some (some "desc") ∧
    (CreateCustomTagWithRelationshipsCommand.run "q1" (some []) (some "desc") false
      okOracle { tags := [], assocs := [] }).1.assocs =
      Store.assocs { tags := [], assocs := [] } ∧
    countTags (CreateCustomTagWithRelationshipsCommand.run "q1" (some []) (some "desc")
      false okOracle { tags := [], assocs := [] }).1 (pyStrip "q1") TagTypes.custom =
      max (countTags { tags := [], assocs := [] } (pyStrip "q1") TagTypes.custom) 1 :=
  C6_empty_batch_description "q1" "desc" false okOracle { tags := [], assocs := [] }
    (by decide) rfl

/-- Claim C7: running the command twice with the same tag name, an empty
reference batch and two different non-empty descriptions leaves exactly one tag
row with that (trimmed) name — no duplicate is created — and its description
equals the second, last-applied value. -/
theorem C7_repeat_last_description_wins (name d1 d2 : String) (b1 b2 : Bool)
    (o1 o2 : Oracle) (s : Store)
    (h1 : d1 ≠ "") (h2 : d2 ≠ "") (hne : d1 ≠ d2)
    (hg1 : o1.getByNameFails = none) (hg2 : o2.getByNameFails = none)
    (hs : countTags s (pyStrip name) TagTypes.custom ≤ 1) :
    countTags (CreateCustomTagWithRelationshipsCommand.run name (some []) (some d2) b2 o2
        (CreateCustomTagWithRelationshipsCommand.run name (some []) (some d1) b1 o1 s).1).1
      (pyStrip name) TagTypes.custom = 1 ∧
    tagDesc (CreateCustomTagWithRelationshipsCommand.run name (some []) (some d2) b2 o2
        (CreateCustomTagWithRelationshipsCommand.run name (some []) (some d1) b1 o1 s).1).1
      (pyStrip name) TagTypes.custom = some (some d2) := by
  have e1 : (CreateCustomTagWithRelationshipsCommand.run name (some []) (some d1) b1 o1 s).1 =
      setDesc (TagDAO.get_by_name s (pyStrip name) TagTypes.custom).1
        (pyStrip name) TagTypes.custom d1 := by
    rw [run2_empty_batch_desc_eq name d1 b1 o1 s h1 hg1]
  have hc1 : countTags (CreateCustomTagWithRelationshipsCommand.run name (some [])
      (some d1) b1 o1 s).1 (pyStrip name) TagTypes.custom = 1 := by
    rw [e1, countTags_setDesc, get_by_name_count]
    omega
  have e2 : (CreateCustomTagWithRelationshipsCommand.run name (some []) (some d2) b2 o2
      (CreateCustomTagWithRelationshipsCommand.run name (some []) (some d1) b1 o1 s).1).1 =
      setDesc (TagDAO.get_by_name
          (CreateCustomTagWithRelationshipsCommand.run name (some []) (some d1) b1 o1 s).1
          (pyStrip name) TagTypes.custom).1
        (pyStrip name) TagTypes.custom d2 := by
    rw [run2_empty_batch_desc_eq name d2 b2 o2 _ h2 hg2]
  constructor
  · rw [e2, countTags_setDesc, get_by_name_count, hc1]
    omega
  · rw [e2]
    exact tagDesc_setDesc_pos _ _ _ _ (get_by_name_count_pos _ _ _)

/-- Witness for C7_repeat_last_description_wins on an empty store. -/
theorem C7_repeat_last_description_wins_witness :
    countTags (CreateCustomTagWithRelationshipsCommand.run "q1" (some []) (some "second")
        false okOracle (CreateCustomTagWithRelationshipsCommand.run "q1" (some [])
          (some "first") false okOracle { tags := [], assocs := [] }).1).1
      (pyStrip "q1") TagTypes.custom = 1 ∧
    tagDesc (CreateCustomTagWithRelationshipsCommand.run "q1" (some []) (some "second")
        false okOracle (CreateCustomTagWithRelationshipsCommand.run "q1" (some [])
          (some "first") false okOracle { tags := [], assocs := [] }).1).1
      (pyStrip "q1") TagTypes.custom = some (some "second") :=
  C7_repeat_last_description_wins "q1" "first" "second" false false okOracle okOracle
    { tags := [], assocs := [] } (by decide) (by decide) (by decide) rfl rfl (by decide)

/-- Claim C8: whenever a persistence-gateway call raises its creation-failure
error after validation passed — `create_custom_tagged_objects` in the first
command, `get_by_name` or `create_tag_relationship` in the second — `run`
catches it and re-raises `TagCreateFailedError` whose cause is the original
persistence error; the caller never sees the persistence error kind directly. -/
theorem C8_dao_error_wrapped (object_type : String) (object_id : Int)
    (tags : List String) (name1 name2 : String)
    (objs2 objs3 : Option (List (String × Int))) (d2 d3 : Option String)
    (b2 b3 : Bool) (o1 o2 o3 : Oracle) (s1 s2 s3 : Store)
    (e1 e2 e3 : DAOCreateFailedError)
    (hv1 : CreateCustomTagCommand.validate object_type object_id = [])
    (hf1 : o1.createTaggedFails = some e1)
    (hv2 : CreateCustomTagWithRelationshipsCommand.validate objs2 = [])
    (hf2 : o2.getByNameFails = some e2)
    (hv3 : CreateCustomTagWithRelationshipsCommand.validate objs3 = [])
    (hg3 : o3.getByNameFails = none) (hf3 : o3.createRelFails = some e3)
    (ht3 : pyTruthyList objs3 = true) :
    (CreateCustomTagCommand.run object_type object_id tags o1 s1).2.2 =
      some (CmdError.tagCreateFailed none (some e1)) ∧
    (CreateCustomTagWithRelationshipsCommand.run name1 objs2 d2 b2 o2 s2).2.2 =
      some (CmdError.tagCreateFailed none (some e2)) ∧
    (CreateCustomTagWithRelationshipsCommand.run name2 objs3 d3 b3 o3 s3).2.2 =
      some (CmdError.tagCreateFailed none (some e3)) := by
  refine ⟨?_, ?_, ?_⟩
  · obtain ⟨ot, hot⟩ := validate1_empty_resolves hv1
    rw [run1_valid_eq object_type object_id tags o1 s1 hv1]
    unfold CreateCustomTagCommand.runBody
    rw [hot, hf1]
  · rw [run2_valid_eq name1 objs2 d2 b2 o2 s2 hv2]
    unfold CreateCustomTagWithRelationshipsCommand.runBody
    rw [hf2]
  · rw [run2_valid_eq name2 objs3 d3 b3 o3 s3 hv3]
    unfold CreateCustomTagWithRelationshipsCommand.runBody
    rw [hg3]
    simp [ht3, hf3]

/-- Witness for C8_dao_error_wrapped: each gateway call failing in turn. -/
theorem C8_dao_error_wrapped_witness :
    (CreateCustomTagCommand.run "chart" 7 ["a"]
        { createTaggedFails := some { message := "dup" }, getByNameFails := none,
          createRelFails := none } { tags := [], assocs := [] }).2.2 =
      some (CmdError.tagCreateFailed none (some { message := "dup" })) ∧
    (CreateCustomTagWithRelationshipsCommand.run "t1" (some [("chart", 5)]) none false
        { createTaggedFails := none, getByNameFails := some { message := "conn" },
          createRelFails := none } { tags := [], assocs := [] }).2.2 =
      some (CmdError.tagCreateFailed none (some { message := "conn" })) ∧
    (CreateCustomTagWithRelationshipsCommand.run "t2" (some [("chart", 5)]) none false
        { createTaggedFails := none, getByNameFails := none,
          createRelFails := some { message := "lock" } } { tags := [], assocs := [] }).2.2 =
      some (CmdError.tagCreateFailed none (some { message := "lock" })) :=
  C8_dao_error_wrapped "chart" 7 ["a"] "t1" "t2" (some [("chart", 5)])
    (some [("chart", 5)]) none none false false
    { createTaggedFails := some { message := "dup" }, getByNameFails := none,
      createRelFails := none }
    { createTaggedFails := none, getByNameFails := some { message := "conn" },
      createRelFails := none }
    { createTaggedFails := none, getByNameFails := none,
      createRelFails := some { message := "lock" } }
    { tags := [], assocs := [] } { tags := [], assocs := [] }
    { tags := [], assocs := [] } { message := "dup" } { message := "conn" }
    { message := "lock" } (by decide) rfl (by decide) rfl (by decide) rfl rfl
    (by decide)

/-- Claim C9: whenever validation passes, the trace of gateway calls issued by
`CreateCustomTagWithRelationshipsCommand.run` begins with the lookup-or-create
call on the whitespace-trimmed tag name under kind custom, and contains exactly
one such lookup call — so it precedes any relationship creation or description
commit. -/
theorem C9_single_trimmed_lookup_first (name : String)
    (objs : Option (List (String × Int))) (d : Option String) (b : Bool)
    (o : Oracle) (s : Store)
    (hv : CreateCustomTagWithRelationshipsCommand.validate objs = []) :
    (CreateCustomTagWithRelationshipsCommand.run name objs d b o s).2.1.head? =
      some (GEvent.getByName (pyStrip name) TagTypes.custom) ∧
    (CreateCustomTagWithRelationshipsCommand.run name objs d b o s).2.1.countP
      isGetByName = 1 := by
  rw [run2_valid_eq name objs d b o s hv]
  unfold CreateCustomTagWithRelationshipsCommand.runBody
  cases hg : o.getByNameFails with
  | some ex => simp [isGetByName]
  | none =>
    by_cases ht : pyTruthyList objs = true
    · cases hr : o.createRelFails with
      | some ex => simp [ht, isGetByName, List.countP_cons]
      | none =>
        unfold descStep
        by_cases hd : pyTruthyStr d = true
        · simp [ht, hd, isGetByName, List.countP_cons]
        · simp [ht, hd, isGetByName, List.countP_cons]
    · unfold descStep
      by_cases hd : pyTruthyStr d = true
      · simp [ht, hd, isGetByName, List.countP_cons]
      · simp [ht, hd, isGetByName, List.countP_cons]

/-- Witness for C9_single_trimmed_lookup_first with a padded tag name, one valid
reference and a description. -/
theorem C9_single_trimmed_lookup_first_witness :
    (CreateCustomTagWithRelationshipsCommand.run "  q1 " (some [("chart", 5)])
        (some "d") true okOracle { tags := [], assocs := [] }).2.1.head? =
      some (GEvent.getByName (pyStrip "  q1 ") TagTypes.custom) ∧
    (CreateCustomTagWithRelationshipsCommand.run "  q1 " (some [("chart", 5)])
        (some "d") true okOracle { tags := [], assocs := [] }).2.1.countP
      isGetByName = 1 :=
  C9_single_trimmed_lookup_first "  q1 " (some [("chart", 5)]) (some "d") true
    okOracle { tags := [], assocs := [] } (by decide)

/-- Claim C10: when the supplied description is absent or the empty string
(falsy in Python), `run` issues no commit and leaves every tag row's
description unchanged — any row present afterwards either keeps its initial
description or is a freshly created row with no description. -/
theorem C10_falsy_description_frame (name : String)
    (objs : Option (List (String × Int))) (d : Option String) (b : Bool)
    (o : Oracle) (s : Store) (hd : pyTruthyStr d = false) :
    GEvent.commit ∉ (CreateCustomTagWithRelationshipsCommand.run name objs d b o s).2.1 ∧
    ∀ m j, tagDesc (CreateCustomTagWithRelationshipsCommand.run name objs d b o s).1 m j =
        tagDesc s m j ∨
      (tagDesc s m j = none ∧
        tagDesc (CreateCustomTagWithRelationshipsCommand.run name objs d b o s).1 m j =
          some none) := by
  by_cases hv : CreateCustomTagWithRelationshipsCommand.validate objs = []
  · rw [run2_valid_eq name objs d b o s hv]
    cases hg : o.getByNameFails with
    | some ex =>
      have hrun : CreateCustomTagWithRelationshipsCommand.runBody name objs d b o s =
          (s, [GEvent.getByName (pyStrip name) TagTypes.custom],
           some (CmdError.tagCreateFailed none (some ex))) := by
        unfold CreateCustomTagWithRelationshipsCommand.runBody
        rw [hg]
      rw [hrun]
      exact ⟨by simp, fun m j => Or.inl rfl⟩
    | none =>
      by_cases ht : pyTruthyList objs = true
      · cases hr : o.createRelFails with
        | some ex =>
          have hrun : CreateCustomTagWithRelationshipsCommand.runBody name objs d b o s =
              ((TagDAO.get_by_name s (pyStrip name) TagTypes.custom).1,
               [GEvent.getByName (pyStrip name) TagTypes.custom,
                GEvent.createRel (objs.getD [])
                  (TagDAO.get_by_name s (pyStrip name) TagTypes.custom).2.name b],
               some (CmdError.tagCreateFailed none (some ex))) := by
            unfold CreateCustomTagWithRelationshipsCommand.runBody
            rw [hg]
            simp [ht, hr]
          rw [hrun]
          exact ⟨by simp,
            fun m j => tagDesc_get_by_name s (pyStrip name) TagTypes.custom m j⟩
        | none =>
          have hrun : CreateCustomTagWithRelationshipsCommand.runBody name objs d b o s =
              (TagDAO.create_tag_relationship
                 (TagDAO.get_by_name s (pyStrip name) TagTypes.custom).1 (objs.getD [])
                 (TagDAO.get_by_name s (pyStrip name) TagTypes.custom).2.name,
               [GEvent.getByName (pyStrip name) TagTypes.custom,
                GEvent.createRel (objs.getD [])
                  (TagDAO.get_by_name s (pyStrip name) TagTypes.custom).2.name b],
               none) := by
            unfold CreateCustomTagWithRelationshipsCommand.runBody descStep
            rw [hg]
            simp [ht, hr, hd]
          rw [hrun]
          refine ⟨by simp, fun m j => ?_⟩
          rw [tagDesc_create_tag_relationship]
          exact tagDesc_get_by_name s (pyStrip name) TagTypes.custom m j
      · have hrun : CreateCustomTagWithRelationshipsCommand.runBody name objs d b o s =
            ((TagDAO.get_by_name s (pyStrip name) TagTypes.custom).1,
             [GEvent.getByName (pyStrip name) TagTypes.custom], none) := by
          unfold CreateCustomTagWithRelationshipsCommand.runBody descStep
          rw [hg]
          simp [ht, hd]
        rw [hrun]
        exact ⟨by simp,
          fun m j => tagDesc_get_by_name s (pyStrip name) TagTypes.custom m j⟩
  · rw [run2_invalid_eq name objs d b o s hv]
    exact ⟨by simp, fun m j => Or.inl rfl⟩

/-- Witness for C10_falsy_description_frame with an empty-string description and
one valid reference. -/
theorem C10_falsy_description_frame_witness :
    GEvent.commit ∉ (CreateCustomTagWithRelationshipsCommand.run "q1"
        (some [("chart", 5)]) (some "") false okOracle
        { tags := [], assocs := [] }).2.1 ∧
    ∀ m j, tagDesc (CreateCustomTagWithRelationshipsCommand.run "q1"
        (some [("chart", 5)]) (some "") false okOracle
        { tags := [], assocs := [] }).1 m j =
        tagDesc { tags := [], assocs := [] } m j ∨
      (tagDesc { tags := [], assocs := [] } m j = none ∧
        tagDesc (CreateCustomTagWithRelationshipsCommand.run "q1"
          (some [("chart", 5)]) (some "") false okOracle
          { tags := [], assocs := [] }).1 m j = some none) :=
  C10_falsy_description_frame "q1" (some [("chart", 5)]) (some "") false okOracle
    { tags := [], assocs := [] } (by decide)
